import Mathlib

/-!
Shallow embedding of the email-authentication record evaluators of this
repository (`utils.py`, `spf_test.py`, `dmarc_test.py`, `dkim_test.py`).
Python strings are modelled as lists of characters (`Str`); every Python
function of the scoring engine is translated to a total, executable Lean
function over that model.  DNS resolution is passed in as an explicit
argument, exactly where the Python code calls `dns_lookup`.
-/

set_option maxRecDepth 8000

abbrev Str := List Char

/-- ASCII whitespace recognised by Python `str.strip`, `str.split` and regex `\s`. -/
def pyIsSpace (c : Char) : Bool :=
  c == ' ' || c == '\t' || c == '\n' || c == '\r' || c == '\x0b' || c == '\x0c'

/-- Python `str.lstrip()` over ASCII whitespace. -/
def stripLead (s : Str) : Str := s.dropWhile pyIsSpace

/-- Python `str.rstrip()` over ASCII whitespace. -/
def stripTrail (s : Str) : Str := (s.reverse.dropWhile pyIsSpace).reverse

/-- Python `str.strip()` over ASCII whitespace. -/
def pyStrip (s : Str) : Str := stripTrail (stripLead s)

/-- Python `str.lower()` (ASCII range, which covers every tag this engine reads). -/
def pyLower (s : Str) : Str := s.map Char.toLower

/-- Python `str.split(sep)` for a one-character separator: empty segments are kept. -/
def splitSep (sep : Char) : Str → List Str
  | [] => [[]]
  | c :: cs =>
    if c = sep then [] :: splitSep sep cs
    else
      match splitSep sep cs with
      | [] => [[c]]
      | t :: ts => (c :: t) :: ts

def splitWsAux : Str → Str → List Str
  | [], acc => if acc = [] then [] else [acc.reverse]
  | c :: cs, acc =>
    if pyIsSpace c then
      if acc = [] then splitWsAux cs [] else acc.reverse :: splitWsAux cs []
    else splitWsAux cs (c :: acc)

/-- Python `str.split()` with no argument: splits on whitespace runs, drops empties. -/
def splitWs (s : Str) : List Str := splitWsAux s []

/-- Python `str.split(sep, 1)` for inputs that contain the separator: the part
before the first occurrence and the part after it. -/
def splitFirst (sep : Char) : Str → Str × Str
  | [] => ([], [])
  | c :: cs =>
    if c = sep then ([], cs)
    else
      let p := splitFirst sep cs
      (c :: p.1, p.2)

def digitsVal (ds : Str) : Nat := ds.foldl (fun n c => 10 * n + (c.toNat - 48)) 0

/-- Python `int(...)` on ASCII decimal strings (optional sign, surrounding
whitespace allowed); `none` models the `ValueError` the callers catch. -/
def parseIntOpt (s : Str) : Option Int :=
  match pyStrip s with
  | [] => none
  | '-' :: ds =>
    if ds ≠ [] ∧ ds.all Char.isDigit then some (-(digitsVal ds : Int)) else none
  | '+' :: ds =>
    if ds ≠ [] ∧ ds.all Char.isDigit then some ((digitsVal ds : Int)) else none
  | ds => if ds.all Char.isDigit then some ((digitsVal ds : Int)) else none

/-- Python string join with the empty separator. -/
def listJoin (l : List Str) : Str := l.foldl (fun a b => a ++ b) []

/-- Decimal rendering of a natural number, as Python `str(n)` inside an f-string. -/
def natStr (n : Nat) : Str := (toString n).data

/-- Last element of a list, if any (Python "last assignment wins" loops). -/
def lastOf {α : Type} (l : List α) : Option α := l.reverse.head?

/-- Python `repr`-free f-string interpolation of a value that is either a
string or `None`. -/
def optStrRepr (o : Option Str) : Str :=
  match o with
  | none => ("None").data
  | some s => s

/-! ## String literals of the source -/

def litVspf1 : Str := ("v=spf1").data
def litIncludeColon : Str := ("include:").data
def litA : Str := ("a").data
def litMx : Str := ("mx").data
def litIp4 : Str := ("ip4:").data
def litIp6 : Str := ("ip6:").data
def litExistsColon : Str := ("exists:").data
def litDashAll : Str := ("-all").data
def litTildeAll : Str := ("~all").data
def litPlusAll : Str := ("+all").data
def litQuestionAll : Str := ("?all").data
def litAll : Str := ("all").data
def litPtr : Str := ("ptr").data

def msgMultiSpf : Str := ("Multiple SPF records found (RFC violation)").data
def msgConsolidate : Str := ("Consolidate into a single SPF record").data
def msgNoSpf : Str := ("No SPF record found").data
def msgNoSpfRec1 : Str := ("Create an SPF record to specify authorized mail servers").data
def msgNoSpfRec2 : Str := ("Start with \"v=spf1 include:_spf.google.com ~all\" if using Google Workspace").data
def msgNoSpfRec3 : Str := ("Use \"v=spf1 mx ~all\" if mail is sent from MX servers only").data
def msgNoSpfRec4 : Str := ("Always end with an \"all\" mechanism").data
def msgNoAll : Str := ("No \"all\" mechanism found").data
def msgAddAll : Str := ("Add an \"all\" mechanism (e.g., \"-all\", \"~all\")").data
def msgUpgradeDashAll : Str := ("Consider upgrading to \"-all\" for stricter policy").data
def msgPlusAllIssue : Str := ("\"+all\" allows any server to send mail").data
def msgPlusAllRec : Str := ("Change \"+all\" to \"~all\" or \"-all\"").data
def msgQuestionAllRec : Str := ("Consider changing \"?all\" to \"~all\" or \"-all\"").data
def msgTooMany (n : Nat) : Str :=
  ("Too many DNS lookups (").data ++ natStr n ++ ("/10 limit)").data
def msgReduce : Str := ("Reduce DNS lookups to stay under RFC limit").data
def msgCloseLimit : Str := ("Close to DNS lookup limit, consider optimization").data
def trustedIncludes : List Str :=
  [("_spf.google.com").data, ("spf.protection.outlook.com").data,
   ("include.mailgun.org").data, ("servers.mcsv.net").data,
   ("_spf.salesforce.com").data]
def msgLongSpf : Str := ("SPF record exceeds 255 character limit").data
def deprecatedMechs : List Str := [litPtr]
def msgDeprecated (m : Str) : Str := ("Deprecated mechanism found: ").data ++ m
def msgRemovePtr : Str := ("Remove deprecated \"ptr\" mechanism").data

def litVDMARC1 : Str := ("v=DMARC1").data
def litDMARC1 : Str := ("DMARC1").data
def litTagV : Str := ("v").data
def litTagP : Str := ("p").data
def litTagSp : Str := ("sp").data
def litPct : Str := ("pct").data
def litRua : Str := ("rua").data
def litRuf : Str := ("ruf").data
def litFo : Str := ("fo").data
def litAspf : Str := ("aspf").data
def litAdkim : Str := ("adkim").data
def litRi : Str := ("ri").data
def litNone : Str := ("none").data
def litQuarantine : Str := ("quarantine").data
def litReject : Str := ("reject").data
def litR : Str := ("r").data
def litS : Str := ("s").data

def msgNoDmarc : Str := ("No DMARC record found").data
def msgCreateDmarcAt (d : Str) : Str := ("Create a DMARC record at _dmarc.").data ++ d
def msgStartNone : Str := ("Start with a policy of \"none\" for monitoring").data
def msgConfigRua : Str := ("Configure reporting addresses (rua/ruf)").data
def msgGradual : Str := ("Gradually move to \"quarantine\" then \"reject\" policy").data
def msgBadVersion (o : Option Str) : Str := ("Invalid DMARC version: ").data ++ optStrRepr o
def msgMissingPolicy : Str := ("Missing policy (p) tag").data
def msgUpgradeQuarantine : Str := ("Consider upgrading policy to \"quarantine\" or \"reject\"").data
def msgUpgradeReject : Str := ("Consider upgrading policy to \"reject\" for maximum protection").data
def msgInvalidPolicy (o : Option Str) : Str := ("Invalid policy value: ").data ++ optStrRepr o
def msgIncreasePct : Str := ("Consider increasing percentage to 100% for full coverage").data
def msgPctZero : Str := ("Percentage set to 0%").data
def msgAddRua : Str := ("Add aggregate reporting address (rua)").data
def msgAddRuf : Str := ("Consider adding forensic reporting address (ruf)").data
def msgRuaCrucial : Str := ("Reporting addresses are crucial for quarantine/reject policies").data

def litDomainkeyDot : Str := ("._domainkey.").data
def litPEq : Str := ("p=").data
def litRsa : Str := ("rsa").data
def litSha256 : Str := ("sha256").data
def litEmail : Str := ("email").data
def litTagK : Str := ("k").data
def litTagH : Str := ("h").data
def litTagS : Str := ("s").data
def litTagT : Str := ("t").data
def litGoogle : Str := ("google").data
def litGmail : Str := ("gmail").data
def litDots : Str := ("...").data
def msgInvalidPubKey : Str := ("Invalid public key for selector: ").data
def msgNoValidDkim : Str := ("No valid DKIM selectors found").data
def msgDkimRec1 : Str := ("Implement DKIM signing for outbound emails").data
def msgDkimRec2 : Str := ("Configure DKIM records with appropriate selectors").data
def msgDkimRec3 : Str := ("Use at least 2048-bit RSA keys for security").data
def msgDkimRec4 : Str := ("Test common selectors: default, google, mail").data
def msgSingleSelector : Str := ("Consider implementing multiple DKIM selectors for redundancy").data
def msgGoodRotation : Str := ("Good: Multiple selectors configured for key rotation").data
def msgUpgradeKey (sel : Str) : Str :=
  ("Consider upgrading ").data ++ sel ++ (" key to 2048+ bits").data
def msgWeakKey (sel : Str) (size : Nat) : Str :=
  ("Weak key size for ").data ++ sel ++ (": ").data ++ natStr size ++ (" bits").data

/-! ## `utils.parse_spf_record` -/

/-- The mechanism-classifying prefix tuple of `utils.parse_spf_record`
(`part.startswith(('a', 'mx', 'ip4:', 'ip6:', 'exists:'))`). -/
def spfMechTok (p : Str) : Bool :=
  litA.isPrefixOf p || litMx.isPrefixOf p || litIp4.isPrefixOf p ||
  litIp6.isPrefixOf p || litExistsColon.isPrefixOf p

/-- The terminal-qualifier membership test of `utils.parse_spf_record`
(membership in the four-element qualifier list of the source). -/
def isAllQualifierTok (p : Str) : Bool :=
  p == litDashAll || p == litTildeAll || p == litPlusAll || p == litQuestionAll

structure ParsedSPF where
  mechanisms : List Str
  includes : List Str
  all_mechanism : Option Str
  includes_all : Bool
deriving DecidableEq

/-- One iteration of the token loop of `utils.parse_spf_record`; the state is
`(mechanisms, includes, all_mechanism)`. -/
def spfStep (st : List Str × List Str × Option Str) (part0 : Str) :
    List Str × List Str × Option Str :=
  let part := pyStrip part0
  if litVspf1.isPrefixOf part then st
  else if litIncludeColon.isPrefixOf part then
    (st.1 ++ [part], st.2.1 ++ [part.drop 8], st.2.2)
  else if spfMechTok part then (st.1 ++ [part], st.2.1, st.2.2)
  else if isAllQualifierTok part then (st.1 ++ [part], st.2.1, some part)
  else (st.1 ++ [part], st.2.1, st.2.2)

/-- `utils.parse_spf_record`. -/
def parse_spf_record (s : Str) : ParsedSPF :=
  let st := (splitWs s).foldl spfStep ([], [], none)
  ⟨st.1, st.2.1, st.2.2, st.2.2.isSome⟩

/-! ## `utils.parse_dmarc_record` -/

structure DmarcPolicy where
  version : Option Str
  policy : Option Str
  subdomain_policy : Option Str
  percentage : Int
  rua : List Str
  ruf : List Str
  forensic_options : Option Str
  alignment_spf : Str
  alignment_dkim : Str
  report_interval : Int
deriving DecidableEq

/-- The `policy_data` defaults of `utils.parse_dmarc_record`. -/
def dmarcDefaults : DmarcPolicy :=
  ⟨none, none, none, 100, [], [], none, litR, litR, 86400⟩

/-- `utils._assign_dmarc_tag`. -/
def assignDmarcTag (pd : DmarcPolicy) (tag value : Str) : DmarcPolicy :=
  if tag = litTagV then { pd with version := some value }
  else if tag = litTagP then { pd with policy := some value }
  else if tag = litTagSp then { pd with subdomain_policy := some value }
  else if tag = litPct then
    match parseIntOpt value with
    | some n => { pd with percentage := n }
    | none => pd
  else if tag = litRua then { pd with rua := (splitSep ',' value).map pyStrip }
  else if tag = litRuf then { pd with ruf := (splitSep ',' value).map pyStrip }
  else if tag = litFo then { pd with forensic_options := some value }
  else if tag = litAspf then { pd with alignment_spf := value }
  else if tag = litAdkim then { pd with alignment_dkim := value }
  else if tag = litRi then
    match parseIntOpt value with
    | some n => { pd with report_interval := n }
    | none => pd
  else pd

/-- One iteration of the pair loop of `utils.parse_dmarc_record`. -/
def dmarcStep (pd : DmarcPolicy) (pair0 : Str) : DmarcPolicy :=
  let pair := pyStrip pair0
  if '=' ∈ pair then
    let tv := splitFirst '=' pair
    assignDmarcTag pd (pyLower (pyStrip tv.1)) (pyStrip tv.2)
  else pd

/-- `utils.parse_dmarc_record`. -/
def parse_dmarc_record (s : Str) : DmarcPolicy :=
  (splitSep ';' s).foldl dmarcStep dmarcDefaults

/-- The lower-cased tag a segment would be parsed under, `none` when the
segment lacks `=` and is skipped. -/
def segTag (pair0 : Str) : Option Str :=
  let pair := pyStrip pair0
  if '=' ∈ pair then some (pyLower (pyStrip (splitFirst '=' pair).1)) else none

/-! ## `spf_test.py` -/

structure SpfResult where
  domain : Str
  record_found : Bool
  record : Option Str
  mechanisms : List Str
  includes : List Str
  all_mechanism : Option Str
  includes_all : Bool
  valid : Bool
  issues : List Str
  recommendations : List Str
  score : Int
  dns_lookups : Nat
deriving DecidableEq

/-- The fresh `result` dictionary of `spf_test.test_spf`. -/
def initSpfResult (d : Str) : SpfResult :=
  ⟨d, false, none, [], [], none, false, false, [], [], 0, 0⟩

namespace Spf

/-- One iteration of the scan loop of `spf_test.get_spf_record`. -/
def spfSelStep (st : Option Str × Nat) (rec : Str) : Option Str × Nat :=
  if litVspf1.isPrefixOf rec then (some rec, st.2 + 1) else st

/-- `spf_test.get_spf_record`: scans the TXT strings, remembering the most
recent one starting with `v=spf1` and counting how many matched. -/
def get_spf_record (txt : List Str) : Option Str × Nat :=
  txt.foldl spfSelStep (none, 0)

/-- `spf_test.check_spf_record_presence`; returns the updated result and the
boolean the Python function returns. -/
def check_spf_record_presence (res : SpfResult) (r? : Option Str) (cnt : Nat) :
    SpfResult × Bool :=
  let res :=
    if cnt > 1 then
      { res with issues := res.issues ++ [msgMultiSpf],
                 recommendations := res.recommendations ++ [msgConsolidate] }
    else res
  let absent := fun (res : SpfResult) =>
    { res with issues := res.issues ++ [msgNoSpf],
               recommendations := res.recommendations ++
                 [msgNoSpfRec1, msgNoSpfRec2, msgNoSpfRec3, msgNoSpfRec4] }
  match r? with
  | none => (absent res, false)
  | some r =>
    if r = [] then (absent res, false)
    else ({ res with record_found := true, record := some r,
                     score := res.score + 30 }, true)

/-- `spf_test.score_all_mechanism`. -/
def score_all_mechanism (res : SpfResult) (p : ParsedSPF) : SpfResult :=
  if p.includes_all = false then
    { res with issues := res.issues ++ [msgNoAll],
               recommendations := res.recommendations ++ [msgAddAll] }
  else if p.all_mechanism = some litDashAll then { res with score := res.score + 40 }
  else if p.all_mechanism = some litTildeAll then
    { res with score := res.score + 25,
               recommendations := res.recommendations ++ [msgUpgradeDashAll] }
  else if p.all_mechanism = some litPlusAll then
    { res with score := res.score + 5,
               issues := res.issues ++ [msgPlusAllIssue],
               recommendations := res.recommendations ++ [msgPlusAllRec] }
  else if p.all_mechanism = some litQuestionAll then
    { res with score := res.score + 10,
               recommendations := res.recommendations ++ [msgQuestionAllRec] }
  else res

/-- The lookup-cost test of `spf_test.count_dns_lookups`
(`include:`, `a`, `mx`, `exists:` prefixes — and nothing else). -/
def spfLookupTok (m : Str) : Bool :=
  litIncludeColon.isPrefixOf m || litA.isPrefixOf m || litMx.isPrefixOf m ||
  litExistsColon.isPrefixOf m

/-- `spf_test.count_dns_lookups`. -/
def count_dns_lookups (ms : List Str) : Nat :=
  ms.foldl (fun n m => if spfLookupTok m then n + 1 else n) 0

/-- `spf_test.check_dns_lookup_limit`. -/
def check_dns_lookup_limit (res : SpfResult) (n : Nat) : SpfResult :=
  if n > 10 then
    { res with issues := res.issues ++ [msgTooMany n],
               recommendations := res.recommendations ++ [msgReduce] }
  else if n > 8 then
    { res with recommendations := res.recommendations ++ [msgCloseLimit] }
  else { res with score := res.score + 10 }

/-- `spf_test.score_mechanisms`. -/
def score_mechanisms (res : SpfResult) (p : ParsedSPF) : SpfResult :=
  let res := if p.mechanisms.any (fun m => litMx.isPrefixOf m) then
    { res with score := res.score + 5 } else res
  if p.includes.length > 0 then { res with score := res.score + 10 } else res

/-- `spf_test.score_trusted_includes` (the loop breaks after the first hit,
so the score rises by 5 exactly when some include target is trusted). -/
def score_trusted_includes (res : SpfResult) (includes : List Str) : SpfResult :=
  if includes.any (fun i => trustedIncludes.contains i) then
    { res with score := res.score + 5 }
  else res

/-- `spf_test.check_record_length`. -/
def check_record_length (res : SpfResult) (r : Str) : SpfResult :=
  if r.length > 255 then { res with issues := res.issues ++ [msgLongSpf] } else res

/-- `spf_test.check_deprecated_mechanisms`. -/
def check_deprecated_mechanisms (res : SpfResult) (ms : List Str) : SpfResult :=
  ms.foldl
    (fun res m =>
      if deprecatedMechs.any (fun dep => dep.isPrefixOf m) then
        { res with issues := res.issues ++ [msgDeprecated m],
                   recommendations := res.recommendations ++ [msgRemovePtr] }
      else res)
    res

/-- `spf_test.validate_overall`. -/
def validate_overall (res : SpfResult) (r : Str) (p : ParsedSPF) (n : Nat) :
    SpfResult :=
  if litVspf1.isPrefixOf r ∧ p.includes_all = true ∧ n ≤ 10 then
    { res with valid := true }
  else res

/-- The tail of `spf_test.test_spf` once a record has been selected
(lines 146-160 of the source). -/
def evaluate_spf_tail (res : SpfResult) (r : Str) : SpfResult :=
  let parsed := parse_spf_record r
  let res := { res with mechanisms := parsed.mechanisms,
                        includes := parsed.includes,
                        all_mechanism := parsed.all_mechanism,
                        includes_all := parsed.includes_all }
  let res := score_all_mechanism res parsed
  let n := count_dns_lookups parsed.mechanisms
  let res := { res with dns_lookups := n }
  let res := check_dns_lookup_limit res n
  let res := score_mechanisms res parsed
  let res := score_trusted_includes res parsed.includes
  let res := check_record_length res r
  let res := check_deprecated_mechanisms res parsed.mechanisms
  validate_overall res r parsed n

/-- `spf_test.test_spf` with the DNS answer passed in as `txt`. -/
def test_spf_pure (d : Str) (txt : List Str) : SpfResult :=
  let res := initSpfResult d
  let pr := get_spf_record txt
  let cp := check_spf_record_presence res pr.1 pr.2
  match pr.1, cp.2 with
  | some r, true => evaluate_spf_tail cp.1 r
  | _, _ => cp.1

end Spf

/-! ## `dmarc_test.py` -/

structure DmarcResult where
  domain : Str
  record_found : Bool
  record : Option Str
  policy : Option Str
  subdomain_policy : Option Str
  percentage : Int
  rua_addresses : List Str
  ruf_addresses : List Str
  alignment_spf : Option Str
  alignment_dkim : Option Str
  valid : Bool
  issues : List Str
  recommendations : List Str
  score : Int
deriving DecidableEq

/-- The fresh `result` dictionary of `dmarc_test.test_dmarc`. -/
def initDmarcResult (d : Str) : DmarcResult :=
  ⟨d, false, none, none, none, 0, [], [], none, none, false, [], [], 0⟩

/-- The result of `dmarc_test.test_dmarc` right after a record has been
found, before `score_dmarc` runs. -/
def dmarcFoundInit (d r : Str) : DmarcResult :=
  { initDmarcResult d with record_found := true, record := some r }

/-- Python truthiness of an optional string (None and the empty string are falsy). -/
def optTruthy (o : Option Str) : Bool :=
  match o with
  | none => false
  | some s => decide (s ≠ [])

namespace Dmarc

/-- `dmarc_test.get_dmarc_record` with the `_dmarc.<domain>` TXT answer passed
in: the first string starting with `v=DMARC1`. -/
def get_dmarc_record (records : List Str) : Option Str :=
  records.find? (fun r => litVDMARC1.isPrefixOf r)

/-- `dmarc_test.handle_no_dmarc_record`. -/
def handle_no_dmarc_record (res : DmarcResult) (d : Str) : DmarcResult :=
  { res with issues := res.issues ++ [msgNoDmarc],
             recommendations := res.recommendations ++
               [msgCreateDmarcAt d, msgStartNone, msgConfigRua, msgGradual] }

/-- `dmarc_test.validate_version`. -/
def validate_version (p : DmarcPolicy) (res : DmarcResult) : DmarcResult :=
  if p.version ≠ some litDMARC1 then
    { res with issues := res.issues ++ [msgBadVersion p.version] }
  else { res with score := res.score + 20 }

/-- `dmarc_test.score_policy`. -/
def score_policy (p : DmarcPolicy) (res : DmarcResult) : DmarcResult :=
  let res := { res with policy := p.policy }
  if optTruthy p.policy = false then
    { res with issues := res.issues ++ [msgMissingPolicy] }
  else if p.policy = some litNone then
    { res with score := res.score + 10,
               recommendations := res.recommendations ++ [msgUpgradeQuarantine] }
  else if p.policy = some litQuarantine then
    { res with score := res.score + 25,
               recommendations := res.recommendations ++ [msgUpgradeReject] }
  else if p.policy = some litReject then { res with score := res.score + 40 }
  else { res with issues := res.issues ++ [msgInvalidPolicy p.policy] }

/-- `dmarc_test.score_subdomain_policy`. -/
def score_subdomain_policy (p : DmarcPolicy) (res : DmarcResult) : DmarcResult :=
  let res := { res with subdomain_policy := p.subdomain_policy }
  if optTruthy p.subdomain_policy then { res with score := res.score + 5 } else res

/-- `dmarc_test.score_percentage`. -/
def score_percentage (p : DmarcPolicy) (res : DmarcResult) : DmarcResult :=
  let res := { res with percentage := p.percentage }
  if p.percentage = 100 then { res with score := res.score + 15 }
  else if p.percentage > 0 then
    { res with score := res.score + 10,
               recommendations := res.recommendations ++ [msgIncreasePct] }
  else { res with issues := res.issues ++ [msgPctZero] }

/-- `dmarc_test.check_reporting_addresses`. -/
def check_reporting_addresses (p : DmarcPolicy) (res : DmarcResult) : DmarcResult :=
  let res := { res with rua_addresses := p.rua, ruf_addresses := p.ruf }
  let res :=
    if p.rua ≠ [] then { res with score := res.score + 10 }
    else { res with recommendations := res.recommendations ++ [msgAddRua] }
  if p.ruf ≠ [] then { res with score := res.score + 5 }
  else { res with recommendations := res.recommendations ++ [msgAddRuf] }

/-- `dmarc_test.check_alignment`. -/
def check_alignment (p : DmarcPolicy) (res : DmarcResult) : DmarcResult :=
  let res := { res with alignment_spf := some p.alignment_spf,
                        alignment_dkim := some p.alignment_dkim }
  let res := if p.alignment_spf = litS then { res with score := res.score + 5 } else res
  if p.alignment_dkim = litS then { res with score := res.score + 5 } else res

/-- `dmarc_test.validate_overall`. -/
def validate_overall (p : DmarcPolicy) (res : DmarcResult) : DmarcResult :=
  if p.version = some litDMARC1 ∧
     (p.policy = some litNone ∨ p.policy = some litQuarantine ∨
      p.policy = some litReject) ∧
     p.percentage > 0 then
    { res with valid := true }
  else res

/-- `dmarc_test.add_policy_recommendations`. -/
def add_policy_recommendations (p : DmarcPolicy) (res : DmarcResult) : DmarcResult :=
  if (p.policy = some litQuarantine ∨ p.policy = some litReject) ∧ p.rua = [] then
    { res with recommendations := res.recommendations ++ [msgRuaCrucial] }
  else res

/-- `dmarc_test.score_dmarc`. -/
def score_dmarc (p : DmarcPolicy) (res : DmarcResult) : DmarcResult :=
  add_policy_recommendations p (validate_overall p (check_alignment p
    (check_reporting_addresses p (score_percentage p (score_subdomain_policy p
      (score_policy p (validate_version p res)))))))

/-- `dmarc_test.test_dmarc` with the DNS answer passed in as `records`. -/
def test_dmarc_pure (d : Str) (records : List Str) : DmarcResult :=
  let res := initDmarcResult d
  match get_dmarc_record records with
  | none => handle_no_dmarc_record res d
  | some r =>
    score_dmarc (parse_dmarc_record r)
      { res with record_found := true, record := some r }

end Dmarc

/-! ## `dkim_test.py` -/

structure ParsedDKIM where
  version : Option Str
  algorithm : Str
  public_key : Option Str
  key_type : Str
  hash_algorithms : List Str
  service_type : List Str
  flags : List Str
deriving DecidableEq

/-- The `parsed` defaults of `dkim_test.parse_dkim_record`. -/
def dkimDefaults : ParsedDKIM :=
  ⟨none, litRsa, none, litRsa, [litSha256], [litEmail], []⟩

/-- The tag dispatch inside `dkim_test.parse_dkim_record`. -/
def assignDkimTag (pd : ParsedDKIM) (tag value : Str) : ParsedDKIM :=
  if tag = litTagV then { pd with version := some value }
  else if tag = litTagK then { pd with key_type := value, algorithm := value }
  else if tag = litTagP then { pd with public_key := some value }
  else if tag = litTagH then { pd with hash_algorithms := splitSep ':' value }
  else if tag = litTagS then { pd with service_type := splitSep ':' value }
  else if tag = litTagT then { pd with flags := splitSep ':' value }
  else pd

/-- One iteration of the pair loop of `dkim_test.parse_dkim_record` (the whole
record has already had its spaces removed). -/
def dkimStep (pd : ParsedDKIM) (pair : Str) : ParsedDKIM :=
  if '=' ∈ pair then
    let tv := splitFirst '=' pair
    assignDkimTag pd (pyLower (pyStrip tv.1)) (pyStrip tv.2)
  else pd

/-- `dkim_test.parse_dkim_record`. -/
def parse_dkim_record (s : Str) : ParsedDKIM :=
  (splitSep ';' (s.filter (fun c => c ≠ ' '))).foldl dkimStep dkimDefaults

/-- Python substring membership `needle in hay`. -/
def subStrIn (needle : Str) : Str → Bool
  | [] => needle.isPrefixOf []
  | c :: cs => needle.isPrefixOf (c :: cs) || subStrIn needle cs

/-- Membership in the base64 alphabet used by `base64.b64decode`. -/
def isB64Char (c : Char) : Bool :=
  decide ('A' ≤ c ∧ c ≤ 'Z') || decide ('a' ≤ c ∧ c ≤ 'z') ||
  decide ('0' ≤ c ∧ c ≤ '9') || c == '+' || c == '/'

/-- The quad automaton of CPython `binascii.a2b_base64` in non-strict mode,
tracking only the number of decoded bytes: characters outside the alphabet are
skipped, a pad sequence that completes a quad ends the decode, and leftover
characters at the end are a padding error (`none`). -/
def b64Loop : Str → Nat → Nat → Nat → Option Nat
  | [], quad, _, n => if quad = 0 then some n else none
  | c :: cs, quad, pads, n =>
    if c = '=' then
      if 2 ≤ quad then
        if 4 ≤ quad + (pads + 1) then some n else b64Loop cs quad (pads + 1) n
      else b64Loop cs quad pads n
    else if isB64Char c then
      b64Loop cs ((quad + 1) % 4) 0 (if quad = 0 then n else n + 1)
    else b64Loop cs quad pads n

/-- Length of `base64.b64decode(s)` for a `str` argument, `none` on the
exceptions the callers catch (non-ASCII input or incorrect padding). -/
def b64decodeLen (s : Str) : Option Nat :=
  if s.all (fun c => c.toNat < 128) then b64Loop s 0 0 0 else none

/-- `dkim_test.validate_dkim_key`. -/
def validate_dkim_key (k : Str) : Bool :=
  if k = [] then false
  else
    match b64decodeLen (k.filter (fun c => !(pyIsSpace c))) with
    | none => false
    | some n => if n < 50 then false else true

/-- `dkim_test.get_rsa_key_size` (the argument is the parsed public_key
field, which may be None; any exception yields 0). -/
def get_rsa_key_size (k? : Option Str) : Nat :=
  match k? with
  | none => 0
  | some k =>
    match b64decodeLen (k.filter (fun c => !(pyIsSpace c))) with
    | none => 0
    | some der_size =>
      if der_size > 400 then 4096
      else if der_size > 250 then 2048
      else if der_size > 150 then 1024
      else 512

structure DkimResult where
  domain : Str
  selectors_found : List Str
  selectors_tested : List Str
  valid_selectors : List Str
  invalid_selectors : List Str
  public_keys : List (Str × Str)
  key_algorithms : List (Str × Str)
  key_sizes : List (Str × Nat)
  issues : List Str
  recommendations : List Str
  score : Int
deriving DecidableEq

/-- `dkim_test.init_dkim_result`. -/
def initDkimResult (d : Str) : DkimResult :=
  ⟨d, [], [], [], [], [], [], [], [], [], 0⟩

namespace Dkim

/-- `dkim_test.handle_key_size_and_score`. -/
def handle_key_size_and_score (selector : Str) (parsed : ParsedDKIM)
    (res : DkimResult) : DkimResult :=
  if parsed.algorithm = litRsa then
    let key_size := get_rsa_key_size parsed.public_key
    let res := { res with key_sizes := res.key_sizes ++ [(selector, key_size)] }
    if key_size ≥ 2048 then { res with score := res.score + 10 }
    else if key_size ≥ 1024 then
      { res with score := res.score + 5,
                 recommendations := res.recommendations ++ [msgUpgradeKey selector] }
    else { res with issues := res.issues ++ [msgWeakKey selector key_size] }
  else res

/-- The body of the selector loop of `dkim_test.process_selectors`; the state
is the result together with the running `valid_count`. -/
def process_one_selector (dns : Str → List Str) (domain : Str)
    (st : DkimResult × Nat) (selector : Str) : DkimResult × Nat :=
  let res := { st.1 with selectors_tested := st.1.selectors_tested ++ [selector] }
  let records := dns (selector ++ litDomainkeyDot ++ domain)
  if records = [] then (res, st.2)
  else
    let record := listJoin records
    if record = [] ∨ subStrIn litPEq record = false then (res, st.2)
    else
      let res := { res with selectors_found := res.selectors_found ++ [selector] }
      let parsed := parse_dkim_record record
      match parsed.public_key with
      | none => (res, st.2)
      | some k =>
        if k = [] then (res, st.2)
        else
          let res := { res with
            public_keys := res.public_keys ++ [(selector, k.take 50 ++ litDots)],
            key_algorithms := res.key_algorithms ++ [(selector, parsed.algorithm)] }
          if validate_dkim_key k then
            let res := { res with valid_selectors := res.valid_selectors ++ [selector] }
            (handle_key_size_and_score selector parsed res, st.2 + 1)
          else
            ({ res with invalid_selectors := res.invalid_selectors ++ [selector],
                        issues := res.issues ++ [msgInvalidPubKey ++ selector] },
             st.2)

/-- `dkim_test.process_selectors` with DNS passed in. -/
def process_selectors (dns : Str → List Str) (domain : Str)
    (selectors : List Str) (res : DkimResult) : DkimResult × Nat :=
  selectors.foldl (process_one_selector dns domain) (res, 0)

/-- `dkim_test.apply_scoring_and_recommendations`. -/
def apply_scoring_and_recommendations (res : DkimResult) (valid_count : Nat) :
    DkimResult :=
  if valid_count = 0 then
    { res with issues := res.issues ++ [msgNoValidDkim],
               recommendations := res.recommendations ++
                 [msgDkimRec1, msgDkimRec2, msgDkimRec3, msgDkimRec4] }
  else
    let res := { res with score := res.score + (50 + (valid_count : Int) * 10) }
    let res :=
      if valid_count = 1 then
        { res with recommendations := res.recommendations ++ [msgSingleSelector] }
      else res
    let res :=
      if litGoogle ∈ res.valid_selectors ∨ litGmail ∈ res.valid_selectors then
        { res with score := res.score + 5 }
      else res
    if valid_count ≥ 2 then
      { res with score := res.score + 10,
                 recommendations := res.recommendations ++ [msgGoodRotation] }
    else res

/-- The candidate-selector list of `dkim_test.test_dkim`. -/
def commonSelectors : List Str :=
  [("default").data, ("selector1").data, ("selector2").data, ("google").data,
   ("gmail").data, ("mail").data, ("email").data, ("dkim").data, ("k1").data,
   ("s1").data, ("s2").data, ("mxvault").data, ("mailo").data,
   ("mailgun").data, ("sendgrid").data, ("mandrill").data, ("amazonses").data]

/-- `dkim_test.test_dkim` with DNS passed in. -/
def test_dkim_pure (dns : Str → List Str) (d : Str) : DkimResult :=
  let res := initDkimResult d
  let pc := process_selectors dns d commonSelectors res
  apply_scoring_and_recommendations pc.1 pc.2

end Dkim

/-- The lookup-cost classification as the specification words it: one unit for
each token with prefix `include:`, `a`, `mx`, `ip4:`, `ip6:` or `exists:`.
Stated from the spec only to compare with `Spf.spfLookupTok`, the test the
code actually performs. -/
def specLookupTok (m : Str) : Bool :=
  litIncludeColon.isPrefixOf m || litA.isPrefixOf m || litMx.isPrefixOf m ||
  litIp4.isPrefixOf m || litIp6.isPrefixOf m || litExistsColon.isPrefixOf m

/-! ## List helpers -/

lemma lastOf_eq_nil {α : Type} {l : List α} (h : lastOf l = none) : l = [] := by
  unfold lastOf at h
  cases hr : l.reverse with
  | nil => simpa using congrArg List.reverse hr
  | cons b t => rw [hr] at h; simp at h

lemma lastOf_nil {α : Type} : lastOf ([] : List α) = none := rfl

lemma lastOf_cons {α : Type} (a : α) (l : List α) :
    lastOf (a :: l) =
      match lastOf l with
      | some x => some x
      | none => some a := by
  unfold lastOf
  cases h : l.reverse with
  | nil => simp [h]
  | cons b t => simp [h]

lemma lastOf_mem {α : Type} {l : List α} {x : α} (h : lastOf l = some x) :
    x ∈ l := by
  unfold lastOf at h
  cases hr : l.reverse with
  | nil => rw [hr] at h; simp at h
  | cons b t =>
    rw [hr] at h
    simp only [List.head?_cons, Option.some.injEq] at h
    have hb : b ∈ l.reverse := by rw [hr]; exact List.mem_cons_self b t
    rw [← h]
    exact List.mem_reverse.mp hb

lemma lastOf_map {α β : Type} (f : α → β) (l : List α) :
    lastOf (l.map f) = (lastOf l).map f := by
  unfold lastOf
  rw [← List.map_reverse]
  cases l.reverse <;> simp

lemma lastOf_filter_last {α : Type} (p : α → Bool) {l : List α} {x : α}
    (h : lastOf l = some x) (hp : p x = true) :
    lastOf (l.filter p) = some x := by
  unfold lastOf at h ⊢
  rw [← List.filter_reverse]
  cases hr : l.reverse with
  | nil => rw [hr] at h; simp at h
  | cons b t =>
    rw [hr] at h
    simp only [List.head?_cons, Option.some.injEq] at h
    subst h
    simp [List.filter_cons, hp]

/-! ## Characterisation of `parse_spf_record` -/

lemma allQual_cases {p : Str} (h : isAllQualifierTok p = true) :
    p = litDashAll ∨ p = litTildeAll ∨ p = litPlusAll ∨ p = litQuestionAll := by
  simp only [isAllQualifierTok, Bool.or_eq_true, beq_iff_eq] at h
  tauto

lemma allQual_not_spf {p : Str} (h : isAllQualifierTok p = true) :
    litVspf1.isPrefixOf p = false ∧ litIncludeColon.isPrefixOf p = false ∧
    spfMechTok p = false := by
  rcases allQual_cases h with rfl | rfl | rfl | rfl <;> decide

lemma spfStep_all (st : List Str × List Str × Option Str) (t : Str) :
    (spfStep st t).2.2 =
      if isAllQualifierTok (pyStrip t) = true then some (pyStrip t) else st.2.2 := by
  by_cases h : isAllQualifierTok (pyStrip t) = true
  · obtain ⟨h1, h2, h3⟩ := allQual_not_spf h
    simp [spfStep, h, h1, h2, h3]
  · rw [if_neg h]
    simp only [spfStep]
    split_ifs <;> simp_all

lemma spfStep_mechs (st : List Str × List Str × Option Str) (t : Str) :
    (spfStep st t).1 =
      if litVspf1.isPrefixOf (pyStrip t) = true then st.1
      else st.1 ++ [pyStrip t] := by
  by_cases h : litVspf1.isPrefixOf (pyStrip t) = true
  · simp [spfStep, h]
  · rw [if_neg h]
    simp only [spfStep]
    split_ifs <;> simp_all

lemma foldl_spfStep_all (toks : List Str) :
    ∀ st, (toks.foldl spfStep st).2.2 =
      match lastOf ((toks.map pyStrip).filter (fun p => isAllQualifierTok p)) with
      | some q => some q
      | none => st.2.2 := by
  induction toks with
  | nil => intro st; simp [lastOf]
  | cons t ts ih =>
    intro st
    rw [List.foldl_cons, ih, List.map_cons, List.filter_cons]
    by_cases h : isAllQualifierTok (pyStrip t) = true
    · rw [if_pos h, lastOf_cons]
      cases hl : lastOf ((ts.map pyStrip).filter (fun p => isAllQualifierTok p)) with
      | some q => simp
      | none => simp [spfStep_all, h]
    · rw [if_neg h]
      cases hl : lastOf ((ts.map pyStrip).filter (fun p => isAllQualifierTok p)) with
      | some q => simp [hl]
      | none => simp [hl, spfStep_all, h]

lemma foldl_spfStep_mechs (toks : List Str) :
    ∀ st, (toks.foldl spfStep st).1 =
      st.1 ++ (toks.map pyStrip).filter (fun p => !(litVspf1.isPrefixOf p)) := by
  induction toks with
  | nil => intro st; simp
  | cons t ts ih =>
    intro st
    rw [List.foldl_cons, ih, List.map_cons, List.filter_cons]
    by_cases h : litVspf1.isPrefixOf (pyStrip t) = true
    · simp [h, spfStep_mechs]
    · simp [h, spfStep_mechs, List.append_assoc]

lemma parse_spf_record_all (s : Str) :
    (parse_spf_record s).all_mechanism =
      lastOf (((splitWs s).map pyStrip).filter (fun p => isAllQualifierTok p)) := by
  have h :
      (parse_spf_record s).all_mechanism =
        ((splitWs s).foldl spfStep ([], [], none)).2.2 := rfl
  rw [h, foldl_spfStep_all]
  cases lastOf (((splitWs s).map pyStrip).filter (fun p => isAllQualifierTok p)) <;> rfl

lemma parse_spf_record_includes_all (s : Str) :
    (parse_spf_record s).includes_all = (parse_spf_record s).all_mechanism.isSome := rfl

lemma parse_spf_record_mechs (s : Str) :
    (parse_spf_record s).mechanisms =
      ((splitWs s).map pyStrip).filter (fun p => !(litVspf1.isPrefixOf p)) := by
  have h :
      (parse_spf_record s).mechanisms =
        ((splitWs s).foldl spfStep ([], [], none)).1 := rfl
  rw [h, foldl_spfStep_mechs]
  rfl

/-! ## Characterisation of the SPF selection and lookup counting -/

lemma count_dns_lookups_aux (ms : List Str) :
    ∀ n, ms.foldl (fun n m => if Spf.spfLookupTok m then n + 1 else n) n =
      n + (ms.filter (fun m => Spf.spfLookupTok m)).length := by
  induction ms with
  | nil => intro n; simp
  | cons m ms ih =>
    intro n
    rw [List.foldl_cons, List.filter_cons]
    by_cases h : Spf.spfLookupTok m = true
    · rw [if_pos h, if_pos h, ih]
      simp
      omega
    · rw [if_neg h, if_neg h, ih]

lemma count_dns_lookups_eq (ms : List Str) :
    Spf.count_dns_lookups ms = (ms.filter (fun m => Spf.spfLookupTok m)).length := by
  have h := count_dns_lookups_aux ms 0
  simpa [Spf.count_dns_lookups] using h

lemma spfSelStep_fst (st : Option Str × Nat) (r : Str) :
    (Spf.spfSelStep st r).1 =
      if litVspf1.isPrefixOf r = true then some r else st.1 := by
  unfold Spf.spfSelStep
  split_ifs <;> rfl

lemma spfSelStep_snd (st : Option Str × Nat) (r : Str) :
    (Spf.spfSelStep st r).2 =
      if litVspf1.isPrefixOf r = true then st.2 + 1 else st.2 := by
  unfold Spf.spfSelStep
  split_ifs <;> rfl

lemma foldl_spfSelStep_fst (txt : List Str) :
    ∀ st, (txt.foldl Spf.spfSelStep st).1 =
      match lastOf (txt.filter (fun r => litVspf1.isPrefixOf r)) with
      | some x => some x
      | none => st.1 := by
  induction txt with
  | nil => intro st; simp [lastOf]
  | cons r rs ih =>
    intro st
    rw [List.foldl_cons, ih, List.filter_cons]
    by_cases h : litVspf1.isPrefixOf r = true
    · rw [if_pos h, lastOf_cons]
      cases hl : lastOf (rs.filter (fun r => litVspf1.isPrefixOf r)) with
      | some x => simp
      | none => simp [spfSelStep_fst, h]
    · rw [if_neg h]
      cases hl : lastOf (rs.filter (fun r => litVspf1.isPrefixOf r)) with
      | some x => simp [hl]
      | none => simp [hl, spfSelStep_fst, h]

lemma foldl_spfSelStep_snd (txt : List Str) :
    ∀ st, (txt.foldl Spf.spfSelStep st).2 =
      st.2 + (txt.filter (fun r => litVspf1.isPrefixOf r)).length := by
  induction txt with
  | nil => intro st; simp
  | cons r rs ih =>
    intro st
    rw [List.foldl_cons, ih, List.filter_cons]
    by_cases h : litVspf1.isPrefixOf r = true
    · rw [if_pos h]
      simp [spfSelStep_snd, h]
      omega
    · rw [if_neg h]
      simp [spfSelStep_snd, h]

lemma get_spf_record_fst (txt : List Str) :
    (Spf.get_spf_record txt).1 =
      lastOf (txt.filter (fun r => litVspf1.isPrefixOf r)) := by
  unfold Spf.get_spf_record
  rw [foldl_spfSelStep_fst]
  cases lastOf (txt.filter (fun r => litVspf1.isPrefixOf r)) <;> rfl

lemma get_spf_record_snd (txt : List Str) :
    (Spf.get_spf_record txt).2 =
      (txt.filter (fun r => litVspf1.isPrefixOf r)).length := by
  unfold Spf.get_spf_record
  rw [foldl_spfSelStep_snd]
  simp

lemma get_spf_record_some_spf {txt : List Str} {r : Str} {cnt : Nat}
    (h : Spf.get_spf_record txt = (some r, cnt)) :
    litVspf1.isPrefixOf r = true := by
  have h1 : (Spf.get_spf_record txt).1 = some r := by rw [h]
  rw [get_spf_record_fst] at h1
  have h2 := lastOf_mem h1
  exact (List.mem_filter.mp h2).2

/-! ## Field facts about the SPF scoring stages -/

lemma presence_valid (res : SpfResult) (r? : Option Str) (cnt : Nat) :
    (Spf.check_spf_record_presence res r? cnt).1.valid = res.valid := by
  cases r? <;> simp only [Spf.check_spf_record_presence] <;> split_ifs <;> rfl

lemma presence_snd_true (res : SpfResult) (r : Str) (cnt : Nat) (hr : r ≠ []) :
    (Spf.check_spf_record_presence res (some r) cnt).2 = true := by
  simp only [Spf.check_spf_record_presence]
  split_ifs <;> simp_all

lemma presence_issues_multi (res : SpfResult) (r : Str) (cnt : Nat)
    (h : cnt > 1) (hr : r ≠ []) :
    (Spf.check_spf_record_presence res (some r) cnt).1.issues =
      res.issues ++ [msgMultiSpf] ∧
    (Spf.check_spf_record_presence res (some r) cnt).1.recommendations =
      res.recommendations ++ [msgConsolidate] := by
  simp only [Spf.check_spf_record_presence]
  split_ifs <;> simp_all

lemma presence_issues_single (res : SpfResult) (r : Str) (hr : r ≠ []) :
    (Spf.check_spf_record_presence res (some r) 1).1.issues = res.issues := by
  simp only [Spf.check_spf_record_presence]
  split_ifs <;> simp_all

lemma score_all_valid (res : SpfResult) (p : ParsedSPF) :
    (Spf.score_all_mechanism res p).valid = res.valid := by
  simp only [Spf.score_all_mechanism]
  split_ifs <;> rfl

lemma score_all_no_all (res : SpfResult) (p : ParsedSPF)
    (h : p.includes_all = false) :
    (Spf.score_all_mechanism res p).issues = res.issues ++ [msgNoAll] := by
  simp only [Spf.score_all_mechanism, h]
  rfl

lemma score_all_dash_score (res : SpfResult) (p : ParsedSPF)
    (h1 : p.includes_all = true) (h2 : p.all_mechanism = some litDashAll) :
    (Spf.score_all_mechanism res p).score = res.score + 40 := by
  simp only [Spf.score_all_mechanism, h1, h2]
  norm_num

lemma lookup_limit_valid (res : SpfResult) (n : Nat) :
    (Spf.check_dns_lookup_limit res n).valid = res.valid := by
  simp only [Spf.check_dns_lookup_limit]
  split_ifs <;> rfl

lemma lookup_limit_issues_mem (res : SpfResult) (n : Nat) {x : Str}
    (h : x ∈ res.issues) : x ∈ (Spf.check_dns_lookup_limit res n).issues := by
  simp only [Spf.check_dns_lookup_limit]
  split_ifs <;> simp [h]

lemma score_mechanisms_valid (res : SpfResult) (p : ParsedSPF) :
    (Spf.score_mechanisms res p).valid = res.valid := by
  simp only [Spf.score_mechanisms]
  split_ifs <;> rfl

lemma score_mechanisms_issues (res : SpfResult) (p : ParsedSPF) :
    (Spf.score_mechanisms res p).issues = res.issues := by
  simp only [Spf.score_mechanisms]
  split_ifs <;> rfl

lemma trusted_valid (res : SpfResult) (l : List Str) :
    (Spf.score_trusted_includes res l).valid = res.valid := by
  simp only [Spf.score_trusted_includes]
  split_ifs <;> rfl

lemma trusted_issues (res : SpfResult) (l : List Str) :
    (Spf.score_trusted_includes res l).issues = res.issues := by
  simp only [Spf.score_trusted_includes]
  split_ifs <;> rfl

lemma record_length_valid (res : SpfResult) (r : Str) :
    (Spf.check_record_length res r).valid = res.valid := by
  simp only [Spf.check_record_length]
  split_ifs <;> rfl

lemma record_length_issues_mem (res : SpfResult) (r : Str) {x : Str}
    (h : x ∈ res.issues) : x ∈ (Spf.check_record_length res r).issues := by
  simp only [Spf.check_record_length]
  split_ifs <;> simp [h]

lemma deprecated_valid (ms : List Str) :
    ∀ res : SpfResult, (Spf.check_deprecated_mechanisms res ms).valid = res.valid := by
  induction ms with
  | nil => intro res; rfl
  | cons m ms ih =>
    intro res
    simp only [Spf.check_deprecated_mechanisms, List.foldl_cons] at ih ⊢
    rw [ih]
    split_ifs <;> rfl

lemma deprecated_issues_mem (ms : List Str) {x : Str} :
    ∀ res : SpfResult, x ∈ res.issues →
      x ∈ (Spf.check_deprecated_mechanisms res ms).issues := by
  induction ms with
  | nil => intro res h; exact h
  | cons m ms ih =>
    intro res h
    simp only [Spf.check_deprecated_mechanisms, List.foldl_cons] at ih ⊢
    apply ih
    split_ifs <;> simp [h]

lemma validate_overall_valid (res : SpfResult) (r : Str) (p : ParsedSPF) (n : Nat) :
    (Spf.validate_overall res r p n).valid =
      if litVspf1.isPrefixOf r ∧ p.includes_all = true ∧ n ≤ 10 then true
      else res.valid := by
  simp only [Spf.validate_overall]
  split_ifs <;> rfl

lemma validate_overall_issues (res : SpfResult) (r : Str) (p : ParsedSPF) (n : Nat) :
    (Spf.validate_overall res r p n).issues = res.issues := by
  simp only [Spf.validate_overall]
  split_ifs <;> rfl

lemma evaluate_spf_tail_valid (res : SpfResult) (r : Str) :
    (Spf.evaluate_spf_tail res r).valid =
      if litVspf1.isPrefixOf r ∧ (parse_spf_record r).includes_all = true ∧
         Spf.count_dns_lookups (parse_spf_record r).mechanisms ≤ 10 then true
      else res.valid := by
  simp only [Spf.evaluate_spf_tail]
  rw [validate_overall_valid, deprecated_valid, record_length_valid, trusted_valid,
    score_mechanisms_valid, lookup_limit_valid, score_all_valid]

lemma evaluate_spf_tail_noAll (res : SpfResult) (r : Str)
    (h : (parse_spf_record r).includes_all = false) :
    msgNoAll ∈ (Spf.evaluate_spf_tail res r).issues := by
  simp only [Spf.evaluate_spf_tail]
  rw [validate_overall_issues]
  apply deprecated_issues_mem
  apply record_length_issues_mem
  rw [trusted_issues, score_mechanisms_issues]
  apply lookup_limit_issues_mem
  rw [score_all_no_all _ _ h]
  simp

lemma test_spf_pure_eq {txt : List Str} {r : Str} {cnt : Nat} (d : Str)
    (h : Spf.get_spf_record txt = (some r, cnt)) (hr : r ≠ []) :
    Spf.test_spf_pure d txt =
      Spf.evaluate_spf_tail
        (Spf.check_spf_record_presence (initSpfResult d) (some r) cnt).1 r := by
  simp only [Spf.test_spf_pure, h]
  rw [presence_snd_true _ _ _ hr]

lemma spf_record_nonempty {r : Str} (h : litVspf1.isPrefixOf r = true) : r ≠ [] := by
  intro he
  subst he
  revert h
  decide

lemma test_spf_pure_valid_iff {txt : List Str} {r : Str} {cnt : Nat} (d : Str)
    (h : Spf.get_spf_record txt = (some r, cnt)) :
    ((Spf.test_spf_pure d txt).valid = true ↔
      (litVspf1.isPrefixOf r = true ∧ (parse_spf_record r).includes_all = true ∧
       Spf.count_dns_lookups (parse_spf_record r).mechanisms ≤ 10)) := by
  have hp := get_spf_record_some_spf h
  have hr := spf_record_nonempty hp
  rw [test_spf_pure_eq d h hr, evaluate_spf_tail_valid, presence_valid]
  have hv : (initSpfResult d).valid = false := rfl
  rw [hv]
  split_ifs with hc
  · simp [hc]
  · simp only [Bool.false_eq_true, false_iff]
    exact hc

/-! ## SPF claim theorems -/

lemma last_dash_all_mech {r : Str} (h : lastOf (splitWs r) = some litDashAll) :
    (parse_spf_record r).all_mechanism = some litDashAll := by
  rw [parse_spf_record_all]
  have h1 : lastOf ((splitWs r).map pyStrip) = some (pyStrip litDashAll) := by
    rw [lastOf_map, h]; rfl
  have h2 : pyStrip litDashAll = litDashAll := by decide
  rw [h2] at h1
  exact lastOf_filter_last _ h1 (by decide)

/-- C1 counterexample: on `"v=spf1 -all ~all"` the parser keeps the second
qualifier `~all`, so the first-seen token `-all` does not win. -/
theorem spf_first_seen_refuted :
    (parse_spf_record (("v=spf1 -all ~all").data)).all_mechanism = some litTildeAll
    ∧ litTildeAll ≠ litDashAll := by
  decide

/-- C1 (amended): when an SPF record contains two or more terminal `all`
qualifier tokens, `parse_spf_record` sets `all_mechanism` to the last such
token in left-to-right order (the loop overwrites on every match). -/
theorem spf_all_mechanism_last_seen (s : Str)
    (h : 2 ≤ (((splitWs s).map pyStrip).filter (fun p => isAllQualifierTok p)).length) :
    (parse_spf_record s).all_mechanism =
      lastOf (((splitWs s).map pyStrip).filter (fun p => isAllQualifierTok p)) :=
  parse_spf_record_all s

theorem spf_all_mechanism_last_seen_witness :
    2 ≤ (((splitWs (("v=spf1 -all ~all").data)).map pyStrip).filter
          (fun p => isAllQualifierTok p)).length
    ∧ (parse_spf_record (("v=spf1 -all ~all").data)).all_mechanism =
        lastOf (((splitWs (("v=spf1 -all ~all").data)).map pyStrip).filter
          (fun p => isAllQualifierTok p)) :=
  ⟨by decide, spf_all_mechanism_last_seen _ (by decide)⟩

/-- C2 counterexample: the token `ip4:192.0.2.1` is one lookup unit per the
claim (`specLookupTok`) but `count_dns_lookups` does not count it. -/
theorem spf_lookup_count_ip4_refuted :
    Spf.count_dns_lookups
        ((parse_spf_record (("v=spf1 ip4:192.0.2.1 -all").data)).mechanisms) = 0
    ∧ ((parse_spf_record (("v=spf1 ip4:192.0.2.1 -all").data)).mechanisms.filter
        (fun m => specLookupTok m)).length = 1 := by
  decide

/-- C2 (amended): `count_dns_lookups` counts exactly the tokens with prefix
`include:`, `a`, `mx` or `exists:` (`ip4:`/`ip6:` tokens are not counted);
`check_dns_lookup_limit` adds the limit issue when the count exceeds 10, only
a recommendation when it is 9 or 10, and +10 to the score when it is at
most 8. -/
theorem spf_lookup_count_amended (ms : List Str) (res : SpfResult) (n : Nat) :
    Spf.count_dns_lookups ms = (ms.filter (fun m => Spf.spfLookupTok m)).length
    ∧ (10 < n →
        (Spf.check_dns_lookup_limit res n).issues = res.issues ++ [msgTooMany n] ∧
        (Spf.check_dns_lookup_limit res n).recommendations =
          res.recommendations ++ [msgReduce] ∧
        (Spf.check_dns_lookup_limit res n).score = res.score)
    ∧ ((n = 9 ∨ n = 10) →
        (Spf.check_dns_lookup_limit res n).recommendations =
          res.recommendations ++ [msgCloseLimit] ∧
        (Spf.check_dns_lookup_limit res n).issues = res.issues ∧
        (Spf.check_dns_lookup_limit res n).score = res.score)
    ∧ (n ≤ 8 →
        (Spf.check_dns_lookup_limit res n).score = res.score + 10 ∧
        (Spf.check_dns_lookup_limit res n).issues = res.issues ∧
        (Spf.check_dns_lookup_limit res n).recommendations = res.recommendations) := by
  refine ⟨count_dns_lookups_eq ms, ?_, ?_, ?_⟩
  · intro h
    simp only [Spf.check_dns_lookup_limit, if_pos h]
    simp
  · intro h
    have h1 : ¬ (n > 10) := by omega
    have h2 : n > 8 := by omega
    simp only [Spf.check_dns_lookup_limit, if_neg h1, if_pos h2]
    simp
  · intro h
    have h1 : ¬ (n > 10) := by omega
    have h2 : ¬ (n > 8) := by omega
    simp only [Spf.check_dns_lookup_limit, if_neg h1, if_neg h2]
    simp

theorem spf_lookup_count_amended_witness :
    (Spf.check_dns_lookup_limit (initSpfResult []) 11).issues =
        (initSpfResult []).issues ++ [msgTooMany 11]
    ∧ (Spf.check_dns_lookup_limit (initSpfResult []) 9).recommendations =
        (initSpfResult []).recommendations ++ [msgCloseLimit]
    ∧ (Spf.check_dns_lookup_limit (initSpfResult []) 3).score =
        (initSpfResult []).score + 10
    ∧ Spf.count_dns_lookups [litMx] =
        ([litMx].filter (fun m => Spf.spfLookupTok m)).length :=
  ⟨((spf_lookup_count_amended [] (initSpfResult []) 11).2.1 (by omega)).1,
   ((spf_lookup_count_amended [] (initSpfResult []) 9).2.2.1 (Or.inl rfl)).1,
   ((spf_lookup_count_amended [] (initSpfResult []) 3).2.2.2 (by omega)).1,
   (spf_lookup_count_amended [litMx] (initSpfResult []) 9).1⟩

/-- C3: for every evaluated SPF record, `valid` is true exactly when the
record starts with `v=spf1`, a terminal `all` qualifier was parsed, and the
DNS-lookup count is at most 10; moreover when the last token of the record is
`-all` the terminal-qualifier rule adds exactly 40 to the score and the
record is valid whenever the lookup count is at most 10. -/
theorem spf_valid_iff_and_dash_all (d : Str) (txt : List Str) (r : Str) (cnt : Nat)
    (h : Spf.get_spf_record txt = (some r, cnt)) :
    ((Spf.test_spf_pure d txt).valid = true ↔
      (litVspf1.isPrefixOf r = true ∧ (parse_spf_record r).includes_all = true ∧
       Spf.count_dns_lookups (parse_spf_record r).mechanisms ≤ 10))
    ∧ (lastOf (splitWs r) = some litDashAll →
        (∀ res : SpfResult,
          (Spf.score_all_mechanism res (parse_spf_record r)).score = res.score + 40)
        ∧ (Spf.count_dns_lookups (parse_spf_record r).mechanisms ≤ 10 →
            (Spf.test_spf_pure d txt).valid = true)) := by
  refine ⟨test_spf_pure_valid_iff d h, fun hl => ?_⟩
  have ham := last_dash_all_mech hl
  have hia : (parse_spf_record r).includes_all = true := by
    rw [parse_spf_record_includes_all, ham]; rfl
  refine ⟨fun res => score_all_dash_score res _ hia ham, fun hcount => ?_⟩
  exact (test_spf_pure_valid_iff d h).mpr ⟨get_spf_record_some_spf h, hia, hcount⟩

theorem spf_valid_iff_and_dash_all_witness :
    (Spf.test_spf_pure (("example.com").data) [("v=spf1 -all").data]).valid = true := by
  have h : Spf.get_spf_record [("v=spf1 -all").data] =
      (some (("v=spf1 -all").data), 1) := by decide
  have hthm := spf_valid_iff_and_dash_all (("example.com").data) _ _ _ h
  exact (hthm.2 (by decide)).2 (by decide)

/-- C8: the SPF evaluator selects the last TXT string starting with `v=spf1`
and counts the matches; with two or more matches `check_spf_record_presence`
emits the multiple-records issue and the consolidation recommendation, and
with exactly one match no such issue is emitted. -/
theorem spf_multiple_records_last_evaluated (d : Str) (txt : List Str) :
    ((Spf.get_spf_record txt).1 =
        lastOf (txt.filter (fun r => litVspf1.isPrefixOf r)))
    ∧ ((Spf.get_spf_record txt).2 =
        (txt.filter (fun r => litVspf1.isPrefixOf r)).length)
    ∧ (2 ≤ (txt.filter (fun r => litVspf1.isPrefixOf r)).length →
        msgMultiSpf ∈ (Spf.check_spf_record_presence (initSpfResult d)
            (Spf.get_spf_record txt).1 (Spf.get_spf_record txt).2).1.issues
        ∧ msgConsolidate ∈ (Spf.check_spf_record_presence (initSpfResult d)
            (Spf.get_spf_record txt).1 (Spf.get_spf_record txt).2).1.recommendations)
    ∧ ((txt.filter (fun r => litVspf1.isPrefixOf r)).length = 1 →
        msgMultiSpf ∉ (Spf.check_spf_record_presence (initSpfResult d)
            (Spf.get_spf_record txt).1 (Spf.get_spf_record txt).2).1.issues) := by
  refine ⟨get_spf_record_fst txt, get_spf_record_snd txt, ?_, ?_⟩
  · intro hlen
    cases hL : lastOf (txt.filter (fun r => litVspf1.isPrefixOf r)) with
    | none =>
      exfalso
      rw [lastOf_eq_nil hL] at hlen
      simp at hlen
    | some r =>
      have hpre : litVspf1.isPrefixOf r = true :=
        (List.mem_filter.mp (lastOf_mem hL)).2
      have hr : r ≠ [] := spf_record_nonempty hpre
      rw [get_spf_record_fst, get_spf_record_snd, hL]
      have hm := presence_issues_multi (initSpfResult d) r
        (txt.filter (fun r => litVspf1.isPrefixOf r)).length (by omega) hr
      rw [hm.1, hm.2]
      simp
  · intro hlen
    cases hL : lastOf (txt.filter (fun r => litVspf1.isPrefixOf r)) with
    | none =>
      exfalso
      rw [lastOf_eq_nil hL] at hlen
      simp at hlen
    | some r =>
      have hpre : litVspf1.isPrefixOf r = true :=
        (List.mem_filter.mp (lastOf_mem hL)).2
      have hr : r ≠ [] := spf_record_nonempty hpre
      rw [get_spf_record_fst, get_spf_record_snd, hL, hlen]
      rw [presence_issues_single (initSpfResult d) r hr]
      simp [initSpfResult]

theorem spf_multiple_records_last_evaluated_witness :
    msgMultiSpf ∈ (Spf.check_spf_record_presence
        (initSpfResult (("example.com").data))
        (Spf.get_spf_record [("v=spf1 -all").data, ("v=spf1 ~all").data]).1
        (Spf.get_spf_record [("v=spf1 -all").data, ("v=spf1 ~all").data]).2).1.issues
    ∧ (Spf.get_spf_record [("v=spf1 -all").data, ("v=spf1 ~all").data]).1 =
        lastOf ([("v=spf1 -all").data, ("v=spf1 ~all").data].filter
          (fun r => litVspf1.isPrefixOf r)) := by
  have hthm := spf_multiple_records_last_evaluated (("example.com").data)
    [("v=spf1 -all").data, ("v=spf1 ~all").data]
  exact ⟨(hthm.2.2.1 (by decide)).1, hthm.1⟩

/-- C10: a bare `all` token is classified as an ordinary mechanism through the
`a` prefix: for a selected record whose stripped tokens include `all` and no
qualified `all`, `all_mechanism` is `none`, `includes_all` is false, `all`
lands in `mechanisms` and adds one DNS-lookup unit, the missing-`all` issue is
recorded, and the result is not valid. -/
theorem spf_bare_all_ordinary_mechanism (d : Str) (txt : List Str) (r : Str)
    (cnt : Nat) (h : Spf.get_spf_record txt = (some r, cnt))
    (hall : litAll ∈ (splitWs r).map pyStrip)
    (hq : ∀ p ∈ (splitWs r).map pyStrip, isAllQualifierTok p = false) :
    (parse_spf_record r).all_mechanism = none
    ∧ (parse_spf_record r).includes_all = false
    ∧ litAll ∈ (parse_spf_record r).mechanisms
    ∧ (∀ rest : List Str,
        Spf.count_dns_lookups (litAll :: rest) = Spf.count_dns_lookups rest + 1)
    ∧ msgNoAll ∈ (Spf.test_spf_pure d txt).issues
    ∧ (Spf.test_spf_pure d txt).valid = false := by
  have hnone : (parse_spf_record r).all_mechanism = none := by
    rw [parse_spf_record_all]
    have hf : ((splitWs r).map pyStrip).filter (fun p => isAllQualifierTok p) = [] := by
      rw [List.filter_eq_nil_iff]
      intro p hp
      simp [hq p hp]
    rw [hf]
    rfl
  have hia : (parse_spf_record r).includes_all = false := by
    rw [parse_spf_record_includes_all, hnone]; rfl
  have hmem : litAll ∈ (parse_spf_record r).mechanisms := by
    rw [parse_spf_record_mechs]
    exact List.mem_filter.mpr ⟨hall, by decide⟩
  have hcnt : ∀ rest : List Str,
      Spf.count_dns_lookups (litAll :: rest) = Spf.count_dns_lookups rest + 1 := by
    intro rest
    rw [count_dns_lookups_eq, count_dns_lookups_eq, List.filter_cons]
    have ht : Spf.spfLookupTok litAll = true := by decide
    simp [ht]
  have hvalid : (Spf.test_spf_pure d txt).valid = false := by
    cases hv : (Spf.test_spf_pure d txt).valid
    · rfl
    · exfalso
      obtain ⟨_, h2, _⟩ := (test_spf_pure_valid_iff d h).mp hv
      rw [hia] at h2
      cases h2
  refine ⟨hnone, hia, hmem, hcnt, ?_, hvalid⟩
  have hp := get_spf_record_some_spf h
  have hr := spf_record_nonempty hp
  rw [test_spf_pure_eq d h hr]
  exact evaluate_spf_tail_noAll _ _ hia

theorem spf_bare_all_ordinary_mechanism_witness :
    (parse_spf_record (("v=spf1 mx all").data)).all_mechanism = none
    ∧ (Spf.test_spf_pure (("example.com").data) [("v=spf1 mx all").data]).valid = false := by
  have h : Spf.get_spf_record [("v=spf1 mx all").data] =
      (some (("v=spf1 mx all").data), 1) := by decide
  have hthm := spf_bare_all_ordinary_mechanism (("example.com").data) _ _ _ h
    (by decide) (by decide)
  exact ⟨hthm.1, hthm.2.2.2.2.2⟩

/-! ## Field facts about the DMARC scoring stages -/

lemma d_validate_version_valid (p : DmarcPolicy) (res : DmarcResult) :
    (Dmarc.validate_version p res).valid = res.valid := by
  simp only [Dmarc.validate_version]
  split_ifs <;> rfl

lemma d_score_policy_valid (p : DmarcPolicy) (res : DmarcResult) :
    (Dmarc.score_policy p res).valid = res.valid := by
  simp only [Dmarc.score_policy]
  split_ifs <;> rfl

lemma d_score_subdomain_valid (p : DmarcPolicy) (res : DmarcResult) :
    (Dmarc.score_subdomain_policy p res).valid = res.valid := by
  simp only [Dmarc.score_subdomain_policy]
  split_ifs <;> rfl

lemma d_score_percentage_valid (p : DmarcPolicy) (res : DmarcResult) :
    (Dmarc.score_percentage p res).valid = res.valid := by
  simp only [Dmarc.score_percentage]
  split_ifs <;> rfl

lemma d_check_reporting_valid (p : DmarcPolicy) (res : DmarcResult) :
    (Dmarc.check_reporting_addresses p res).valid = res.valid := by
  simp only [Dmarc.check_reporting_addresses]
  split_ifs <;> rfl

lemma d_check_alignment_valid (p : DmarcPolicy) (res : DmarcResult) :
    (Dmarc.check_alignment p res).valid = res.valid := by
  simp only [Dmarc.check_alignment]
  split_ifs <;> rfl

lemma d_validate_overall_valid (p : DmarcPolicy) (res : DmarcResult) :
    (Dmarc.validate_overall p res).valid =
      if p.version = some litDMARC1 ∧
         (p.policy = some litNone ∨ p.policy = some litQuarantine ∨
          p.policy = some litReject) ∧ p.percentage > 0 then true
      else res.valid := by
  simp only [Dmarc.validate_overall]
  split_ifs <;> rfl

lemma d_add_policy_valid (p : DmarcPolicy) (res : DmarcResult) :
    (Dmarc.add_policy_recommendations p res).valid = res.valid := by
  simp only [Dmarc.add_policy_recommendations]
  split_ifs <;> rfl

lemma d_validate_version_score (p : DmarcPolicy) (res : DmarcResult)
    (h : p.version = some litDMARC1) :
    (Dmarc.validate_version p res).score = res.score + 20 := by
  simp only [Dmarc.validate_version, h]
  rw [if_neg (by simp)]

lemma d_policy_score_reject (p : DmarcPolicy) (res : DmarcResult)
    (h : p.policy = some litReject) :
    (Dmarc.score_policy p res).score = res.score + 40 := by
  simp only [Dmarc.score_policy, h]
  rw [if_neg (show ¬ (optTruthy (some litReject) = false) by decide),
    if_neg (show ¬ ((some litReject : Option Str) = some litNone) by decide),
    if_neg (show ¬ ((some litReject : Option Str) = some litQuarantine) by decide),
    if_pos trivial]

lemma d_policy_score_none (p : DmarcPolicy) (res : DmarcResult)
    (h : p.policy = some litNone) :
    (Dmarc.score_policy p res).score = res.score + 10 := by
  simp only [Dmarc.score_policy, h]
  rw [if_neg (show ¬ (optTruthy (some litNone) = false) by decide), if_pos trivial]

lemma d_subdomain_score (p : DmarcPolicy) (res : DmarcResult) :
    (Dmarc.score_subdomain_policy p res).score =
      res.score + (if optTruthy p.subdomain_policy = true then 5 else 0) := by
  simp only [Dmarc.score_subdomain_policy]
  split_ifs <;> simp

lemma d_percentage_score_100 (p : DmarcPolicy) (res : DmarcResult)
    (h : p.percentage = 100) :
    (Dmarc.score_percentage p res).score = res.score + 15 := by
  simp only [Dmarc.score_percentage, h]
  simp

lemma d_reporting_score_rua (p : DmarcPolicy) (res : DmarcResult)
    (h : p.rua ≠ []) :
    (Dmarc.check_reporting_addresses p res).score =
      res.score + 10 + (if p.ruf ≠ [] then 5 else 0) := by
  simp only [Dmarc.check_reporting_addresses]
  rw [if_pos h]
  split_ifs <;> simp

lemma d_alignment_score (p : DmarcPolicy) (res : DmarcResult) :
    (Dmarc.check_alignment p res).score =
      res.score + (if p.alignment_spf = litS then 5 else 0) +
        (if p.alignment_dkim = litS then 5 else 0) := by
  simp only [Dmarc.check_alignment]
  split_ifs <;> simp

lemma d_validate_overall_score (p : DmarcPolicy) (res : DmarcResult) :
    (Dmarc.validate_overall p res).score = res.score := by
  simp only [Dmarc.validate_overall]
  split_ifs <;> rfl

lemma d_add_policy_score (p : DmarcPolicy) (res : DmarcResult) :
    (Dmarc.add_policy_recommendations p res).score = res.score := by
  simp only [Dmarc.add_policy_recommendations]
  split_ifs <;> rfl

lemma score_dmarc_valid (p : DmarcPolicy) (res : DmarcResult) :
    (Dmarc.score_dmarc p res).valid =
      if p.version = some litDMARC1 ∧
         (p.policy = some litNone ∨ p.policy = some litQuarantine ∨
          p.policy = some litReject) ∧ p.percentage > 0 then true
      else res.valid := by
  simp only [Dmarc.score_dmarc]
  rw [d_add_policy_valid, d_validate_overall_valid, d_check_alignment_valid,
    d_check_reporting_valid, d_score_percentage_valid, d_score_subdomain_valid,
    d_score_policy_valid, d_validate_version_valid]

lemma test_dmarc_pure_eq {records : List Str} {r : Str} (d : Str)
    (h : Dmarc.get_dmarc_record records = some r) :
    Dmarc.test_dmarc_pure d records =
      Dmarc.score_dmarc (parse_dmarc_record r) (dmarcFoundInit d r) := by
  simp only [Dmarc.test_dmarc_pure, h]
  rfl

/-! ## DMARC claim theorems -/

/-- C4: for every DMARC record selected for evaluation, `valid` is true
exactly when the parsed version is `DMARC1`, the policy is one of
none/quarantine/reject, and the percentage is positive; and every selected
record parsing to version `DMARC1`, policy `reject`, percentage 100 and a
non-empty `rua` list scores at least 85 with `valid` true. -/
theorem dmarc_valid_iff_and_reject_score (d : Str) (records : List Str) (r : Str)
    (h : Dmarc.get_dmarc_record records = some r) :
    ((Dmarc.test_dmarc_pure d records).valid = true ↔
      ((parse_dmarc_record r).version = some litDMARC1 ∧
       ((parse_dmarc_record r).policy = some litNone ∨
        (parse_dmarc_record r).policy = some litQuarantine ∨
        (parse_dmarc_record r).policy = some litReject) ∧
       (parse_dmarc_record r).percentage > 0))
    ∧ ((parse_dmarc_record r).version = some litDMARC1 →
       (parse_dmarc_record r).policy = some litReject →
       (parse_dmarc_record r).percentage = 100 →
       (parse_dmarc_record r).rua ≠ [] →
         85 ≤ (Dmarc.test_dmarc_pure d records).score
         ∧ (Dmarc.test_dmarc_pure d records).valid = true) := by
  have heq := test_dmarc_pure_eq d h
  constructor
  · rw [heq, score_dmarc_valid]
    have hv : (dmarcFoundInit d r).valid = false := rfl
    rw [hv]
    split_ifs with hc
    · simp [hc]
    · simp only [Bool.false_eq_true, false_iff]
      exact hc
  · intro h1 h2 h3 h4
    constructor
    · rw [heq]
      simp only [Dmarc.score_dmarc]
      rw [d_add_policy_score, d_validate_overall_score, d_alignment_score,
        d_reporting_score_rua _ _ h4, d_percentage_score_100 _ _ h3,
        d_subdomain_score, d_policy_score_reject _ _ h2,
        d_validate_version_score _ _ h1]
      have hs : (dmarcFoundInit d r).score = 0 := rfl
      rw [hs]
      split_ifs <;> omega
    · rw [heq, score_dmarc_valid]
      rw [if_pos ⟨h1, Or.inr (Or.inr h2), by omega⟩]

theorem dmarc_valid_iff_and_reject_score_witness :
    85 ≤ (Dmarc.test_dmarc_pure (("example.com").data)
        [("v=DMARC1; p=reject; pct=100; rua=mailto:x@y.com").data]).score
    ∧ (Dmarc.test_dmarc_pure (("example.com").data)
        [("v=DMARC1; p=reject; pct=100; rua=mailto:x@y.com").data]).valid = true := by
  have h : Dmarc.get_dmarc_record
      [("v=DMARC1; p=reject; pct=100; rua=mailto:x@y.com").data] =
      some (("v=DMARC1; p=reject; pct=100; rua=mailto:x@y.com").data) := by decide
  exact (dmarc_valid_iff_and_reject_score _ _ _ h).2 (by decide) (by decide)
    (by decide) (by decide)

lemma dmarcStep_preserves (pd : DmarcPolicy) (pair : Str)
    (h1 : segTag pair ≠ some litPct) (h2 : segTag pair ≠ some litAspf)
    (h3 : segTag pair ≠ some litAdkim) (h4 : segTag pair ≠ some litRi) :
    (dmarcStep pd pair).percentage = pd.percentage ∧
    (dmarcStep pd pair).alignment_spf = pd.alignment_spf ∧
    (dmarcStep pd pair).alignment_dkim = pd.alignment_dkim ∧
    (dmarcStep pd pair).report_interval = pd.report_interval := by
  by_cases he : '=' ∈ pyStrip pair
  · simp only [segTag, if_pos he, ne_eq, Option.some.injEq] at h1 h2 h3 h4
    simp only [dmarcStep, if_pos he, assignDmarcTag]
    split_ifs <;> exact ⟨rfl, rfl, rfl, rfl⟩
  · simp only [dmarcStep, if_neg he]
    simp

lemma foldl_dmarcStep_preserves (ps : List Str) :
    ∀ pd : DmarcPolicy,
      (∀ p ∈ ps, segTag p ≠ some litPct ∧ segTag p ≠ some litAspf ∧
        segTag p ≠ some litAdkim ∧ segTag p ≠ some litRi) →
      (ps.foldl dmarcStep pd).percentage = pd.percentage ∧
      (ps.foldl dmarcStep pd).alignment_spf = pd.alignment_spf ∧
      (ps.foldl dmarcStep pd).alignment_dkim = pd.alignment_dkim ∧
      (ps.foldl dmarcStep pd).report_interval = pd.report_interval := by
  induction ps with
  | nil => intro pd _; exact ⟨rfl, rfl, rfl, rfl⟩
  | cons q qs ih =>
    intro pd hq
    rw [List.foldl_cons]
    obtain ⟨a1, a2, a3, a4⟩ := hq q (List.mem_cons_self q qs)
    have hstep := dmarcStep_preserves pd q a1 a2 a3 a4
    have hrest := ih (dmarcStep pd q) (fun p hp => hq p (List.mem_cons_of_mem q hp))
    exact ⟨hrest.1.trans hstep.1, hrest.2.1.trans hstep.2.1,
      hrest.2.2.1.trans hstep.2.2.1, hrest.2.2.2.trans hstep.2.2.2⟩

/-- C9: when the `pct`, `aspf`, `adkim` and `ri` tags are absent,
`parse_dmarc_record` keeps the defaults percentage 100, relaxed alignments
and report interval 86400; and evaluating `"v=DMARC1; p=none"` yields policy
`none`, percentage 100, a score containing the none-policy +10 (total 45),
and the missing-`rua` recommendation. -/
theorem dmarc_defaults_and_p_none (s : Str)
    (h : ∀ p ∈ splitSep ';' s, segTag p ≠ some litPct ∧ segTag p ≠ some litAspf ∧
      segTag p ≠ some litAdkim ∧ segTag p ≠ some litRi) :
    ((parse_dmarc_record s).percentage = 100 ∧
     (parse_dmarc_record s).alignment_spf = litR ∧
     (parse_dmarc_record s).alignment_dkim = litR ∧
     (parse_dmarc_record s).report_interval = 86400)
    ∧ ((Dmarc.test_dmarc_pure (("example.com").data)
          [("v=DMARC1; p=none").data]).policy = some litNone
       ∧ (Dmarc.test_dmarc_pure (("example.com").data)
           [("v=DMARC1; p=none").data]).percentage = 100
       ∧ (Dmarc.test_dmarc_pure (("example.com").data)
           [("v=DMARC1; p=none").data]).score = 45
       ∧ msgAddRua ∈ (Dmarc.test_dmarc_pure (("example.com").data)
           [("v=DMARC1; p=none").data]).recommendations
       ∧ (∀ q : DmarcResult,
           (Dmarc.score_policy (parse_dmarc_record (("v=DMARC1; p=none").data))
             q).score = q.score + 10)) := by
  constructor
  · have hf := foldl_dmarcStep_preserves (splitSep ';' s) dmarcDefaults h
    unfold parse_dmarc_record
    exact ⟨hf.1, hf.2.1, hf.2.2.1, hf.2.2.2⟩
  · refine ⟨by decide, by decide, by decide, by decide, fun q => ?_⟩
    exact d_policy_score_none _ _ (by decide)

theorem dmarc_defaults_and_p_none_witness :
    (parse_dmarc_record (("v=DMARC1; p=none").data)).percentage = 100 ∧
    (parse_dmarc_record (("v=DMARC1; p=none").data)).report_interval = 86400 := by
  have hthm := dmarc_defaults_and_p_none (("v=DMARC1; p=none").data) (by decide)
  exact ⟨hthm.1.1, hthm.1.2.2.2⟩

/-! ## DKIM claim theorems -/

/-- C5: with zero valid selectors the aggregate step adds the no-valid-DKIM
issue and the four baseline recommendations and leaves the score unchanged;
otherwise it adds exactly 50 + 10 per valid selector, +5 when google or gmail
is among the valid selectors, and +10 with the rotation-hygiene
recommendation when there are at least two valid selectors. -/
theorem dkim_aggregate_scoring (res : DkimResult) (n : Nat)
    (h : n = res.valid_selectors.length) :
    (n = 0 →
      (Dkim.apply_scoring_and_recommendations res n).score = res.score ∧
      (Dkim.apply_scoring_and_recommendations res n).issues =
        res.issues ++ [msgNoValidDkim] ∧
      (Dkim.apply_scoring_and_recommendations res n).recommendations =
        res.recommendations ++ [msgDkimRec1, msgDkimRec2, msgDkimRec3, msgDkimRec4])
    ∧ (n ≠ 0 →
      (Dkim.apply_scoring_and_recommendations res n).score =
        res.score + (50 + (n : Int) * 10) +
          (if litGoogle ∈ res.valid_selectors ∨ litGmail ∈ res.valid_selectors
            then 5 else 0) +
          (if 2 ≤ n then 10 else 0)
      ∧ (2 ≤ n → msgGoodRotation ∈
          (Dkim.apply_scoring_and_recommendations res n).recommendations)) := by
  constructor
  · intro h0
    simp only [Dkim.apply_scoring_and_recommendations, if_pos h0]
    simp
  · intro h0
    simp only [Dkim.apply_scoring_and_recommendations, if_neg h0]
    constructor
    · split_ifs <;> simp
    · intro h2
      have h1 : ¬ (n = 1) := by omega
      have hge : n ≥ 2 := h2
      split_ifs <;> simp

theorem dkim_aggregate_scoring_witness :
    (Dkim.apply_scoring_and_recommendations
        { initDkimResult [] with valid_selectors := [litGoogle, litGmail] } 2).score =
      ({ initDkimResult [] with
          valid_selectors := [litGoogle, litGmail] } : DkimResult).score +
        (50 + (2 : Int) * 10) +
        (if litGoogle ∈ ({ initDkimResult [] with
            valid_selectors := [litGoogle, litGmail] } : DkimResult).valid_selectors ∨
           litGmail ∈ ({ initDkimResult [] with
            valid_selectors := [litGoogle, litGmail] } : DkimResult).valid_selectors
          then 5 else 0) +
        (if 2 ≤ 2 then 10 else 0)
    ∧ msgGoodRotation ∈ (Dkim.apply_scoring_and_recommendations
        { initDkimResult [] with valid_selectors := [litGoogle, litGmail] }
        2).recommendations := by
  have hthm := (dkim_aggregate_scoring
    { initDkimResult [] with valid_selectors := [litGoogle, litGmail] } 2
    (by decide)).2 (by decide)
  exact ⟨hthm.1, hthm.2 (by decide)⟩

lemma validate_dkim_key_false {k : Str}
    (hbad : b64decodeLen (k.filter (fun c => !(pyIsSpace c))) = none ∨
      ∃ m, b64decodeLen (k.filter (fun c => !(pyIsSpace c))) = some m ∧ m < 50) :
    validate_dkim_key k = false := by
  unfold validate_dkim_key
  split_ifs with h0
  · rfl
  · rcases hbad with hb | ⟨m, hm, hlt⟩
    · rw [hb]
    · rw [hm]
      simp [hlt]

/-- C6 counterexample: the record `"v=DKIM1;p="` has a `p=` tag whose value
decodes to 0 bytes (fewer than 50), yet the selector is neither appended to
`invalid_selectors` nor given an issue — the empty key is skipped instead. -/
theorem dkim_empty_key_not_invalidated :
    (parse_dkim_record (("v=DKIM1;p=").data)).public_key = some ([] : Str)
    ∧ subStrIn litPEq (("v=DKIM1;p=").data) = true
    ∧ (Dkim.process_one_selector (fun _ => [("v=DKIM1;p=").data])
        (("example.com").data) (initDkimResult (("example.com").data), 0)
        (("default").data)).1.invalid_selectors = []
    ∧ (Dkim.process_one_selector (fun _ => [("v=DKIM1;p=").data])
        (("example.com").data) (initDkimResult (("example.com").data), 0)
        (("default").data)).1.issues = [] := by
  decide

/-- C6 (amended): a selector whose joined record contains the literal `p=`
and parses to a non-empty public key that fails base64 decoding after
whitespace removal, or decodes to fewer than 50 bytes, is appended to
`invalid_selectors` with an issue recorded, and leaves `valid_selectors`,
`key_sizes`, the score and the valid count unchanged (a `p=` tag with an
empty value is skipped without being classified invalid). -/
theorem dkim_invalid_key_classification
    (dns : Str → List Str) (d sel : Str) (res : DkimResult) (cnt : Nat) (k : Str)
    (hp : subStrIn litPEq (listJoin (dns (sel ++ litDomainkeyDot ++ d))) = true)
    (hk : (parse_dkim_record (listJoin (dns (sel ++ litDomainkeyDot ++ d)))).public_key
      = some k)
    (hk0 : k ≠ [])
    (hbad : b64decodeLen (k.filter (fun c => !(pyIsSpace c))) = none ∨
      ∃ m, b64decodeLen (k.filter (fun c => !(pyIsSpace c))) = some m ∧ m < 50) :
    (Dkim.process_one_selector dns d (res, cnt) sel).1.invalid_selectors =
      res.invalid_selectors ++ [sel]
    ∧ (Dkim.process_one_selector dns d (res, cnt) sel).1.issues =
      res.issues ++ [msgInvalidPubKey ++ sel]
    ∧ (Dkim.process_one_selector dns d (res, cnt) sel).1.valid_selectors =
      res.valid_selectors
    ∧ (Dkim.process_one_selector dns d (res, cnt) sel).1.key_sizes = res.key_sizes
    ∧ (Dkim.process_one_selector dns d (res, cnt) sel).1.score = res.score
    ∧ (Dkim.process_one_selector dns d (res, cnt) sel).2 = cnt := by
  have hval := validate_dkim_key_false hbad
  have hrec : listJoin (dns (sel ++ litDomainkeyDot ++ d)) ≠ [] := by
    intro he
    rw [he] at hp
    exact absurd hp (by decide)
  have hdns : dns (sel ++ litDomainkeyDot ++ d) ≠ [] := by
    intro he
    apply hrec
    rw [he]
    rfl
  have hc2 : ¬ (listJoin (dns (sel ++ litDomainkeyDot ++ d)) = [] ∨
      subStrIn litPEq (listJoin (dns (sel ++ litDomainkeyDot ++ d))) = false) := by
    rintro (he | hf)
    · exact hrec he
    · rw [hp] at hf
      cases hf
  have hvfalse : ¬ (validate_dkim_key k = true) := by
    rw [hval]
    simp
  simp only [Dkim.process_one_selector, if_neg hdns, if_neg hc2, hk, if_neg hk0,
    if_neg hvfalse]
  simp

theorem dkim_invalid_key_classification_witness :
    (Dkim.process_one_selector (fun _ => [("v=DKIM1;p=QUFB").data])
        (("example.com").data) (initDkimResult (("example.com").data), 0)
        (("default").data)).1.invalid_selectors =
      (initDkimResult (("example.com").data)).invalid_selectors ++ [("default").data]
    ∧ (Dkim.process_one_selector (fun _ => [("v=DKIM1;p=QUFB").data])
        (("example.com").data) (initDkimResult (("example.com").data), 0)
        (("default").data)).1.valid_selectors =
      (initDkimResult (("example.com").data)).valid_selectors := by
  have hthm := dkim_invalid_key_classification
    (fun _ => [("v=DKIM1;p=QUFB").data]) (("example.com").data)
    (("default").data) (initDkimResult (("example.com").data)) 0
    (("QUFB").data) (by decide) (by decide) (by decide)
    (Or.inr ⟨3, by decide, by decide⟩)
  exact ⟨hthm.1, hthm.2.2.1⟩

/-! ## String-trimming toolbox for the tag-value parsers -/

lemma dropWhile_idem (p : Char → Bool) (l : Str) :
    (l.dropWhile p).dropWhile p = l.dropWhile p := by
  induction l with
  | nil => rfl
  | cons c cs ih =>
    rw [List.dropWhile_cons]
    split_ifs with hc
    · exact ih
    · rw [List.dropWhile_cons, if_neg hc]

lemma dropWhile_append_cons (p : Char → Bool) (a : Str) (c : Char) (b : Str)
    (hc : p c = false) :
    (a ++ c :: b).dropWhile p = a.dropWhile p ++ c :: b := by
  induction a with
  | nil => simp [List.dropWhile_cons, hc]
  | cons x xs ih =>
    rw [List.cons_append, List.dropWhile_cons, List.dropWhile_cons]
    split_ifs with hx
    · exact ih
    · simp

lemma dropWhile_append_of_nil (p : Char → Bool) (l1 l2 : Str)
    (h : l1.dropWhile p = []) :
    (l1 ++ l2).dropWhile p = l2.dropWhile p := by
  induction l1 with
  | nil => rfl
  | cons x xs ih =>
    rw [List.dropWhile_cons] at h
    by_cases hx : p x = true
    · rw [if_pos hx] at h
      rw [List.cons_append, List.dropWhile_cons, if_pos hx]
      exact ih h
    · rw [if_neg hx] at h
      simp at h

lemma dropWhile_append_of_ne (p : Char → Bool) (l1 l2 : Str)
    (h : l1.dropWhile p ≠ []) :
    (l1 ++ l2).dropWhile p = l1.dropWhile p ++ l2 := by
  induction l1 with
  | nil => exact absurd rfl h
  | cons x xs ih =>
    by_cases hx : p x = true
    · rw [List.dropWhile_cons, if_pos hx] at h
      rw [List.cons_append, List.dropWhile_cons, if_pos hx,
        List.dropWhile_cons, if_pos hx]
      exact ih h
    · rw [List.cons_append, List.dropWhile_cons, if_neg hx,
        List.dropWhile_cons, if_neg hx]
      simp

lemma stripTrail_cons (c : Char) (cs : Str) :
    stripTrail (c :: cs) =
      if stripTrail cs = [] then (if pyIsSpace c then [] else [c])
      else c :: stripTrail cs := by
  unfold stripTrail
  rw [List.reverse_cons]
  by_cases hnil : cs.reverse.dropWhile pyIsSpace = []
  · have he : (cs.reverse.dropWhile pyIsSpace).reverse = [] := by rw [hnil]; rfl
    rw [if_pos he, dropWhile_append_of_nil _ _ _ hnil]
    by_cases hc : pyIsSpace c = true
    · rw [if_pos hc]
      simp [List.dropWhile_cons, hc]
    · rw [if_neg hc]
      simp [List.dropWhile_cons, hc]
  · have hne : (cs.reverse.dropWhile pyIsSpace).reverse ≠ [] := by
      intro he
      exact hnil (by simpa using congrArg List.reverse he)
    rw [if_neg hne, dropWhile_append_of_ne _ _ _ hnil]
    simp

lemma stripLead_cons (c : Char) (cs : Str) :
    stripLead (c :: cs) = if pyIsSpace c then stripLead cs else c :: cs := by
  simp [stripLead, List.dropWhile_cons]

lemma stripLead_stripTrail_comm (l : Str) :
    stripLead (stripTrail l) = stripTrail (stripLead l) := by
  induction l with
  | nil => rfl
  | cons c cs ih =>
    by_cases hc : pyIsSpace c = true
    · rw [stripLead_cons, if_pos hc, ← ih, stripTrail_cons]
      split_ifs with h1
      · rw [h1]
      · rw [stripLead_cons, if_pos hc]
    · rw [stripLead_cons, if_neg hc, stripTrail_cons]
      split_ifs with h1
      · rw [stripLead_cons, if_neg hc]
      · rw [stripLead_cons, if_neg hc]

lemma stripLead_idem (l : Str) : stripLead (stripLead l) = stripLead l := by
  unfold stripLead
  exact dropWhile_idem pyIsSpace l

lemma stripTrail_idem (l : Str) : stripTrail (stripTrail l) = stripTrail l := by
  unfold stripTrail
  rw [List.reverse_reverse, dropWhile_idem]

lemma pyStrip_stripLead (t : Str) : pyStrip (stripLead t) = pyStrip t := by
  unfold pyStrip
  rw [stripLead_idem]

lemma pyStrip_stripTrail (v : Str) : pyStrip (stripTrail v) = pyStrip v := by
  unfold pyStrip
  rw [stripLead_stripTrail_comm, stripTrail_idem, ← stripLead_stripTrail_comm]

lemma pyStrip_tag_eq_v (tag v : Str) :
    pyStrip (tag ++ '=' :: v) = stripLead tag ++ '=' :: stripTrail v := by
  unfold pyStrip
  have h1 : stripLead (tag ++ '=' :: v) = stripLead tag ++ '=' :: v := by
    unfold stripLead
    exact dropWhile_append_cons _ _ _ _ (by decide)
  rw [h1]
  unfold stripTrail
  have h2 : (stripLead tag ++ '=' :: v).reverse =
      v.reverse ++ '=' :: (stripLead tag).reverse := by
    simp
  rw [h2, dropWhile_append_cons _ _ _ _ (by decide)]
  simp

lemma splitFirst_append (sep : Char) (a b : Str) (ha : ¬ sep ∈ a) :
    splitFirst sep (a ++ sep :: b) = (a, b) := by
  induction a with
  | nil => simp [splitFirst]
  | cons x xs ih =>
    have hx : ¬ (x = sep) := by
      intro he
      exact ha (he ▸ List.mem_cons_self x xs)
    rw [List.cons_append]
    simp only [splitFirst, if_neg hx]
    rw [ih (fun hm => ha (List.mem_cons_of_mem x hm))]

lemma mem_pyStrip {c : Char} {s : Str} (h : c ∈ pyStrip s) : c ∈ s := by
  unfold pyStrip stripTrail stripLead at h
  rw [List.mem_reverse] at h
  have h2 : c ∈ (s.dropWhile pyIsSpace).reverse :=
    (List.dropWhile_sublist _).subset h
  rw [List.mem_reverse] at h2
  exact (List.dropWhile_sublist _).subset h2

lemma dmarcStep_skip (pd : DmarcPolicy) (t : Str) (h : ¬ '=' ∈ t) :
    dmarcStep pd t = pd := by
  have h2 : ¬ '=' ∈ pyStrip t := fun hm => h (mem_pyStrip hm)
  simp only [dmarcStep, if_neg h2]

lemma dkimStep_skip (pd : ParsedDKIM) (t : Str) (h : ¬ '=' ∈ t) :
    dkimStep pd t = pd := by
  simp only [dkimStep, if_neg h]

lemma foldl_dmarcStep_skip (pre post : List Str) (t : Str) (pd : DmarcPolicy)
    (h : ¬ '=' ∈ t) :
    (pre ++ t :: post).foldl dmarcStep pd = (pre ++ post).foldl dmarcStep pd := by
  rw [List.foldl_append, List.foldl_append, List.foldl_cons, dmarcStep_skip _ _ h]

lemma foldl_dkimStep_skip (pre post : List Str) (t : Str) (pd : ParsedDKIM)
    (h : ¬ '=' ∈ t) :
    (pre ++ t :: post).foldl dkimStep pd = (pre ++ post).foldl dkimStep pd := by
  rw [List.foldl_append, List.foldl_append, List.foldl_cons, dkimStep_skip _ _ h]

lemma stripLead_sub {c : Char} {t : Str} (h : c ∈ stripLead t) : c ∈ t :=
  (List.dropWhile_sublist _).subset h

lemma dmarcStep_norm (pd : DmarcPolicy) (tag v : Str) (h : ¬ '=' ∈ tag) :
    dmarcStep pd (tag ++ '=' :: v) =
      assignDmarcTag pd (pyLower (pyStrip tag)) (pyStrip v) := by
  have hsp := pyStrip_tag_eq_v tag v
  have hm : '=' ∈ pyStrip (tag ++ '=' :: v) := by
    rw [hsp]
    exact List.mem_append_right _ (List.mem_cons_self _ _)
  have hns : ¬ '=' ∈ stripLead tag := fun hmem => h (stripLead_sub hmem)
  simp only [dmarcStep, if_pos hm, hsp, splitFirst_append _ _ _ hns]
  rw [pyStrip_stripLead, pyStrip_stripTrail,
    if_pos (List.mem_append_right _ (List.mem_cons_self _ _))]

lemma dkimStep_norm (pd : ParsedDKIM) (tag v : Str) (h : ¬ '=' ∈ tag) :
    dkimStep pd (tag ++ '=' :: v) =
      assignDkimTag pd (pyLower (pyStrip tag)) (pyStrip v) := by
  have hm : '=' ∈ tag ++ '=' :: v :=
    List.mem_append_right _ (List.mem_cons_self _ _)
  simp only [dkimStep, if_pos hm, splitFirst_append _ _ _ h]

/-- C7: the tag-value parsers degrade gracefully and normalise: a segment
without `=` is skipped with no effect wherever it sits in the segment list,
and a segment `tag=value` is assigned under the lower-cased stripped tag with
the stripped value — for the step functions of both `parse_dmarc_record`
and `parse_dkim_record` (both parsers are total functions of
their input, so no input can make them fail). -/
theorem tag_value_parsers_skip_and_normalize
    (pre post : List Str) (t tag v : Str) (st : DmarcPolicy) (pd : ParsedDKIM)
    (ht : ¬ '=' ∈ t) (htag : ¬ '=' ∈ tag) :
    ((pre ++ t :: post).foldl dmarcStep st = (pre ++ post).foldl dmarcStep st)
    ∧ ((pre ++ t :: post).foldl dkimStep pd = (pre ++ post).foldl dkimStep pd)
    ∧ (dmarcStep st (tag ++ '=' :: v) =
        assignDmarcTag st (pyLower (pyStrip tag)) (pyStrip v))
    ∧ (dkimStep pd (tag ++ '=' :: v) =
        assignDkimTag pd (pyLower (pyStrip tag)) (pyStrip v)) :=
  ⟨foldl_dmarcStep_skip pre post t st ht,
   foldl_dkimStep_skip pre post t pd ht,
   dmarcStep_norm st tag v htag,
   dkimStep_norm pd tag v htag⟩

theorem tag_value_parsers_skip_and_normalize_witness :
    ([("v=DMARC1").data, ("junk").data].foldl dmarcStep dmarcDefaults =
      [("v=DMARC1").data].foldl dmarcStep dmarcDefaults)
    ∧ (dmarcStep dmarcDefaults ((" P ").data ++ '=' :: (" reject ").data) =
        assignDmarcTag dmarcDefaults (pyLower (pyStrip ((" P ").data)))
          (pyStrip ((" reject ").data))) := by
  have hthm := tag_value_parsers_skip_and_normalize [("v=DMARC1").data] []
    (("junk").data) ((" P ").data) ((" reject ").data) dmarcDefaults dkimDefaults
    (by decide) (by decide)
  exact ⟨hthm.1, hthm.2.2.1⟩
